import Mathlib

/-!
Verification of the DICOM-SR → HL7 / FHIR transcoding engine.

This file gives a shallow embedding, in Lean 4, of the Python source of the
repository (obx_former.py, hl7_msg_former.py, dicom_to_fhir.py,
fhir_message_genrate.py, dicom_to_json.py, DICOMSR_HL7_FHIR_Writer_Swagger.py)
and settles the frozen claims C1..C10 about it.

Modelling conventions (used consistently below):
* A pydicom dataset / SR content item is modelled as a record whose fields are
  `Option String` when the Python code reads them with `.get(tag, default)` or
  `getattr(obj, tag, default)` (the `Option` distinguishes "attribute absent"
  from "attribute present but empty").
* A DICOM sequence attribute that the code only iterates over (so that an
  absent sequence behaves exactly like an empty one) is modelled as a plain
  `List`; a sequence whose *presence* is tested (`hasattr` / `in`) with
  distinct behaviour is modelled as an `Option (List _)`.
* Direct attribute access (`obj.Tag`, which raises `AttributeError` when the
  attribute is absent) is modelled by `pyAttr`, returning `Except String`.
* Python falsiness of strings (`if s:`) is the test `s ≠ ""`; `str.strip()`
  is `pyStrip`, `str.split('\n')` is `pySplitCh '\n'`, and `"x".join l` is
  `String.intercalate "x" l` (Python string methods are re-implemented over
  `List Char` so that concrete runs reduce inside the kernel).
* Non-deterministic inputs (wall clock, `uuid.uuid4()`) are passed in as
  explicit parameters (a timestamp string and a generator `Nat → String`).
-/

/-- Python's `getattr(obj, name)` without a default: absent attribute raises
`AttributeError`. -/
def pyAttr (o : Option String) (name : String) : Except String String :=
  match o with
  | some v => Except.ok v
  | none => Except.error ("AttributeError: " ++ name)

/-- Number of leading `' '` characters, i.e. `len(line) - len(line.lstrip(' '))`. -/
def countLeadingSpaces (s : String) : Nat :=
  (s.toList.takeWhile (· = ' ')).length

/-- Python `str.lstrip(' ')`: drop leading space characters. -/
def pyLstripSpaces (s : String) : String :=
  String.mk (s.toList.dropWhile (· = ' '))

/-- Python `str.lstrip()`: drop leading whitespace. -/
def pyLstrip (s : String) : String :=
  String.mk (s.toList.dropWhile Char.isWhitespace)

/-- Python `str.isdigit()` (ASCII): nonempty and all digits. -/
def pyIsDigit (s : String) : Bool :=
  !s.toList.isEmpty && s.toList.all Char.isDigit

/-- Python `str.strip()`: drop leading and trailing whitespace. -/
def pyStrip (s : String) : String :=
  String.mk
    (((s.toList.dropWhile Char.isWhitespace).reverse.dropWhile
        Char.isWhitespace).reverse)

/-- Python `str.lower()`. -/
def pyLower (s : String) : String :=
  String.mk (s.toList.map Char.toLower)

/-- Python `str.upper()`. -/
def pyUpper (s : String) : String :=
  String.mk (s.toList.map Char.toUpper)

/-- Splitting accumulator: the chunks of a character list around a separator
character. -/
def splitChAux (sep : Char) : List Char → List Char → List String
  | [], acc => [String.mk acc.reverse]
  | c :: rest, acc =>
    if c = sep then String.mk acc.reverse :: splitChAux sep rest []
    else splitChAux sep rest (c :: acc)

/-- Python `s.split(sep)` for a one-character separator (e.g.
`report.split('\n')`); `pySplitCh sep "" = [""]`, like Python. -/
def pySplitCh (sep : Char) (s : String) : List String :=
  splitChAux sep s.toList []

/-- Splitting accumulator for whitespace-separated words. -/
def splitWsAux : List Char → List Char → List String
  | [], acc => [String.mk acc.reverse]
  | c :: rest, acc =>
    if c.isWhitespace then String.mk acc.reverse :: splitWsAux rest []
    else splitWsAux rest (c :: acc)

/-- Python `" ".join(s.split())`: collapse internal whitespace runs and strip
the ends. -/
def collapseWs (s : String) : String :=
  String.intercalate " " ((splitWsAux s.toList []).filter (· ≠ ""))

/-- Python `s.replace(c, r)` for a one-character pattern: each occurrence of
`c` is replaced by `r` in one left-to-right pass. -/
def replaceChar (c : Char) (r : String) (s : String) : String :=
  String.mk (s.toList.flatMap (fun x => if x = c then r.toList else [x]))

/-- Python `s[a:b]` slicing on strings (never raises). -/
def pySlice (s : String) (a b : Nat) : String :=
  String.mk ((s.toList.drop a).take (b - a))

/-- `"  " * level`, the indentation prefix of the SR walker. -/
def indentOf (level : Nat) : String :=
  String.mk (List.replicate (2 * level) ' ')

/-- One entry of a DICOM code sequence (`CodeValue`, `CodeMeaning`,
`CodingSchemeDesignator`); fields are read with `.get`/`getattr` defaults. -/
structure CodeEntry where
  codeValue : Option String := none
  codeMeaning : Option String := none
  codingSchemeDesignator : Option String := none
deriving Repr, DecidableEq

/-- One entry of `MeasuredValueSequence`. -/
structure MeasuredValue where
  numericValue : Option String := none
  measurementUnitsCodeSequence : List CodeEntry := []
deriving Repr, DecidableEq

/-- One entry of `ReferencedSOPSequence` (both UIDs are read by direct
attribute access in the source, so they are plain strings). -/
structure RefSOP where
  referencedSOPInstanceUID : String := ""
  referencedSOPClassUID : String := ""
deriving Repr, DecidableEq

/-- One entry of `ReferencedSeriesSequence` inside an evidence sequence. -/
structure EvidenceSeries where
  seriesInstanceUID : String := ""
  referencedSOPSequence : List RefSOP := []
deriving Repr, DecidableEq

/-- One study entry of `CurrentRequestedProcedureEvidenceSequence` /
`PertinentOtherEvidenceSequence`. -/
structure EvidenceStudy where
  studyInstanceUID : String := ""
  referencedSeriesSequence : List EvidenceSeries := []
deriving Repr, DecidableEq

/-- One entry of `ReferringPhysicianIdentificationSequence`. -/
structure PhysId where
  idNumber : Option String := none
deriving Repr, DecidableEq

/-- The non-recursive attributes of one SR content item, as read by
`parse_item` and the observation extractors.  Sequence attributes whose
absence behaves like emptiness in the source (`[] ≡` absent, because the
code reads them through `.get(tag, [{}])[0]`-style defaults) are plain
lists; `ConceptNameCodeSequence` is an `Option (List _)` because
`parse_item` tests its presence and then reads
`item.ConceptNameCodeSequence[0].CodeMeaning` with no default, so an absent
sequence, a present-but-empty sequence, and a first entry without
`CodeMeaning` behave differently (the last two raise). -/
structure SRFields where
  conceptNameCodeSequence : Option (List CodeEntry) := none
  valueType : Option String := none
  relationshipType : Option String := none
  conceptCodeSequence : List CodeEntry := []
  measuredValueSequence : List MeasuredValue := []
  textValue : Option String := none
  dateValue : Option String := none
  timeValue : Option String := none
  observationDateTime : Option String := none
  observationUID : Option String := none
  referencedSOPSequence : List RefSOP := []
deriving Repr, DecidableEq

/-- An SR content item: its flat attributes plus the nested
`ContentSequence` of child items (absent sequence ≡ empty list, since the
source only iterates over it). -/
inductive SRItem : Type where
  | mk (fields : SRFields) (contentSequence : List SRItem) : SRItem

/-- The flat attributes of an SR item. -/
def SRItem.fields : SRItem → SRFields
  | .mk f _ => f

/-- The child items of an SR item. -/
def SRItem.contentSequence : SRItem → List SRItem
  | .mk _ cs => cs

/-- A decoded DICOM dataset, restricted to the attributes the engine reads. -/
structure Dataset where
  patientID : Option String := none
  patientName : Option String := none
  patientBirthDate : Option String := none
  patientSex : Option String := none
  specificCharacterSet : Option String := none
  studyDate : Option String := none
  studyTime : Option String := none
  accessionNumber : Option String := none
  modality : Option String := none
  referringPhysicianName : Option String := none
  referringPhysicianIdentificationSequence : List PhysId := []
  procedureCodeSequence : Option (List CodeEntry) := none
  studyInstanceUID : Option String := none
  seriesInstanceUID : Option String := none
  sopInstanceUID : String := ""
  currentRequestedProcedureEvidenceSequence : List EvidenceStudy := []
  pertinentOtherEvidenceSequence : List EvidenceStudy := []
  contentSequence : Option (List SRItem) := none

/-! ## The SR content walker (obx_former.py `parse_item` / `extract_sr_report`) -/

/-- The concept-name read of `parse_item` (obx_former.py lines 18-20): when
`ConceptNameCodeSequence` is absent the name stays `""`; when it is present,
`item.ConceptNameCodeSequence[0].CodeMeaning` is read with no default, so a
present-but-empty sequence raises `IndexError` and a first entry without
`CodeMeaning` raises `AttributeError`.  This is the one read of `parse_item`
that can raise; every other read uses a `.get` default. -/
def conceptNameOf (f : SRFields) : Except String String :=
  match f.conceptNameCodeSequence with
  | none => Except.ok ""
  | some [] => Except.error "IndexError: list index out of range"
  | some (c :: _) =>
    match c.codeMeaning with
    | some m => Except.ok m
    | none => Except.error "AttributeError: CodeMeaning"

/-- Whether the concept-name read of `parse_item` succeeds on these fields. -/
def nameReadOk (f : SRFields) : Bool :=
  match f.conceptNameCodeSequence with
  | none => true
  | some [] => false
  | some (c :: _) => c.codeMeaning.isSome

/-- The name a successful concept-name read produces. -/
def nameOf (f : SRFields) : String :=
  match f.conceptNameCodeSequence with
  | some (c :: _) => c.codeMeaning.getD ""
  | _ => ""

/-- The single line that `parse_item` appends for one item whose
concept-name read produced `name`: the `if/elif` chain over `ValueType` of
obx_former.py lines 25-52.  Every branch (including the `IMAGE` branch and
the unknown-type fallback) appends exactly one line, and every read here
uses a `.get` default. -/
def renderLineWith (f : SRFields) (name : String) (level : Nat) : String :=
  let indent := indentOf level
  let vt := f.valueType.getD ""
  if vt = "CONTAINER" then
    if name ≠ "" then indent ++ name else indent ++ "[Unnamed CONTAINER]"
  else if vt = "IMAGE" then
    indent
  else if vt = "CODE" then
    let code := f.conceptCodeSequence.headD {}
    indent ++ name ++ " = " ++ code.codeMeaning.getD "" ++ " (" ++
      code.codeValue.getD "" ++ ", " ++ code.codingSchemeDesignator.getD "" ++ ")"
  else if vt = "NUM" then
    let mvs := f.measuredValueSequence.headD {}
    let unit := (mvs.measurementUnitsCodeSequence.headD {}).codeMeaning.getD ""
    indent ++ name ++ " = " ++ mvs.numericValue.getD "" ++ " " ++ unit
  else if vt = "TEXT" then
    indent ++ name ++ " = \"" ++ f.textValue.getD "" ++ "\""
  else if vt = "DATE" then
    indent ++ name ++ " = " ++ f.dateValue.getD ""
  else if vt = "TIME" then
    indent ++ name ++ " = " ++ f.timeValue.getD ""
  else
    indent ++ name ++ " = [Unknown or unhandled value type: " ++ vt ++ "]"

/-- The line `parse_item` appends for one item: the concept-name read
(which can raise) followed by the total value-type dispatch. -/
def renderLine (f : SRFields) (level : Nat) : Except String String :=
  match conceptNameOf f with
  | Except.error e => Except.error e
  | Except.ok name => Except.ok (renderLineWith f name level)

mutual

/-- `parse_item(item, output, level)`: the lines it appends to `output` —
its own rendered line followed by the lines of its children at `level + 1` —
or the exception raised by the first failing concept-name read, which aborts
the whole walk. -/
def parseItem : SRItem → Nat → Except String (List String)
  | .mk f children, level =>
    match renderLine f level with
    | Except.error e => Except.error e
    | Except.ok line =>
      match parseSeq children (level + 1) with
      | Except.error e => Except.error e
      | Except.ok rest => Except.ok (line :: rest)

/-- `parse_item` run over a sequence of items in order (the
`for sub_item in item.ContentSequence` loop). -/
def parseSeq : List SRItem → Nat → Except String (List String)
  | [], _ => Except.ok []
  | it :: rest, level =>
    match parseItem it level with
    | Except.error e => Except.error e
    | Except.ok l₁ =>
      match parseSeq rest level with
      | Except.error e => Except.error e
      | Except.ok l₂ => Except.ok (l₁ ++ l₂)

end

/-- `extract_sr_report(ds)` (obx_former.py lines 4-11); an exception raised
inside `parse_item` propagates out and no report is produced. -/
def extractSrReport (ds : Dataset) : Except String String :=
  match ds.contentSequence with
  | none => Except.ok "No ContentSequence found."
  | some items =>
    match parseSeq items 0 with
    | Except.error e => Except.error e
    | Except.ok output => Except.ok (String.intercalate "\n" output)

mutual

/-- Specification-side enumeration: the nodes of an SR tree in depth-first
pre-order, each paired with its indentation level. -/
def preorderNodes : SRItem → Nat → List (SRFields × Nat)
  | .mk f children, level => (f, level) :: preorderSeq children (level + 1)

/-- Pre-order enumeration of a forest, left to right. -/
def preorderSeq : List SRItem → Nat → List (SRFields × Nat)
  | [], _ => []
  | it :: rest, level => preorderNodes it level ++ preorderSeq rest level

end

mutual

/-- The number of content nodes of an SR tree. -/
def SRItem.size : SRItem → Nat
  | .mk _ children => 1 + sizeSeq children

/-- The number of content nodes of a forest. -/
def sizeSeq : List SRItem → Nat
  | [] => 0
  | it :: rest => SRItem.size it + sizeSeq rest

end

mutual

/-- Every concept-name read in this tree succeeds. -/
def wfNames : SRItem → Bool
  | .mk f children => nameReadOk f && wfNamesSeq children

/-- Every concept-name read in this forest succeeds. -/
def wfNamesSeq : List SRItem → Bool
  | [] => true
  | it :: rest => wfNames it && wfNamesSeq rest

end

theorem conceptNameOf_of_nameReadOk (f : SRFields)
    (h : nameReadOk f = true) : conceptNameOf f = Except.ok (nameOf f) := by
  cases hcn : f.conceptNameCodeSequence with
  | none => simp [conceptNameOf, nameOf, hcn]
  | some l =>
    cases l with
    | nil => simp [nameReadOk, hcn] at h
    | cons c rest =>
      cases hm : c.codeMeaning with
      | none => simp [nameReadOk, hcn, hm] at h
      | some m => simp [conceptNameOf, nameOf, hcn, hm]

theorem conceptNameOf_of_not_nameReadOk (f : SRFields)
    (h : nameReadOk f = false) : ∃ e, conceptNameOf f = Except.error e := by
  cases hcn : f.conceptNameCodeSequence with
  | none => simp [nameReadOk, hcn] at h
  | some l =>
    cases l with
    | nil =>
      exact ⟨"IndexError: list index out of range",
        by simp [conceptNameOf, hcn]⟩
    | cons c rest =>
      cases hm : c.codeMeaning with
      | some m => simp [nameReadOk, hcn, hm] at h
      | none =>
        exact ⟨"AttributeError: CodeMeaning", by simp [conceptNameOf, hcn, hm]⟩

mutual

theorem parseItem_wf_eq (it : SRItem) (level : Nat) (h : wfNames it = true) :
    parseItem it level =
      Except.ok
        ((preorderNodes it level).map
          (fun p => renderLineWith p.1 (nameOf p.1) p.2)) := by
  match it with
  | .mk f children =>
    rw [wfNames, Bool.and_eq_true] at h
    have hr : renderLine f level =
        Except.ok (renderLineWith f (nameOf f) level) := by
      rw [renderLine, conceptNameOf_of_nameReadOk f h.1]
    have hs := parseSeq_wf_eq children (level + 1) h.2
    simp only [parseItem, hr, hs, preorderNodes, List.map_cons]

theorem parseSeq_wf_eq (items : List SRItem) (level : Nat)
    (h : wfNamesSeq items = true) :
    parseSeq items level =
      Except.ok
        ((preorderSeq items level).map
          (fun p => renderLineWith p.1 (nameOf p.1) p.2)) := by
  match items with
  | [] => rfl
  | it :: rest =>
    rw [wfNamesSeq, Bool.and_eq_true] at h
    have h1 := parseItem_wf_eq it level h.1
    have h2 := parseSeq_wf_eq rest level h.2
    simp only [parseSeq, h1, h2, preorderSeq, List.map_append]

end

mutual

theorem parseItem_error_of_not_wf (it : SRItem) (level : Nat)
    (h : wfNames it = false) : ∃ e, parseItem it level = Except.error e := by
  match it with
  | .mk f children =>
    by_cases hn : nameReadOk f = true
    · have hc : wfNamesSeq children = false := by
        rw [wfNames, hn, Bool.true_and] at h
        exact h
      have hr : renderLine f level =
          Except.ok (renderLineWith f (nameOf f) level) := by
        rw [renderLine, conceptNameOf_of_nameReadOk f hn]
      obtain ⟨e, he⟩ := parseSeq_error_of_not_wf children (level + 1) hc
      exact ⟨e, by simp only [parseItem, hr, he]⟩
    · have hn2 : nameReadOk f = false := by
        revert hn
        cases nameReadOk f <;> simp
      obtain ⟨e, he⟩ := conceptNameOf_of_not_nameReadOk f hn2
      exact ⟨e, by simp only [parseItem, renderLine, he]⟩

theorem parseSeq_error_of_not_wf (items : List SRItem) (level : Nat)
    (h : wfNamesSeq items = false) :
    ∃ e, parseSeq items level = Except.error e := by
  match items with
  | [] =>
    rw [wfNamesSeq] at h
    exact Bool.noConfusion h
  | it :: rest =>
    by_cases h1 : wfNames it = true
    · have h2 : wfNamesSeq rest = false := by
        rw [wfNamesSeq, h1, Bool.true_and] at h
        exact h
      have hi := parseItem_wf_eq it level h1
      obtain ⟨e, he⟩ := parseSeq_error_of_not_wf rest level h2
      exact ⟨e, by simp only [parseSeq, hi, he]⟩
    · have h1f : wfNames it = false := by
        revert h1
        cases wfNames it <;> simp
      obtain ⟨e, he⟩ := parseItem_error_of_not_wf it level h1f
      exact ⟨e, by simp only [parseSeq, he]⟩

end

mutual

theorem preorderNodes_length (it : SRItem) (level : Nat) :
    (preorderNodes it level).length = it.size := by
  match it with
  | .mk f children =>
    simp only [preorderNodes, SRItem.size, List.length_cons]
    rw [preorderSeq_length children (level + 1)]
    omega

theorem preorderSeq_length (items : List SRItem) (level : Nat) :
    (preorderSeq items level).length = sizeSeq items := by
  match items with
  | [] => rfl
  | it :: rest =>
    simp only [preorderSeq, sizeSeq, List.length_append]
    rw [preorderNodes_length it level, preorderSeq_length rest level]

end

/-- One `OBX|{i}|ST|{tag}^^AIENGINE||{value}||||||F` segment string. -/
def mkObxST (i : Nat) (tag value : String) : String :=
  "OBX|" ++ toString i ++ "|ST|" ++ tag ++ "^^AIENGINE||" ++ value ++ "||||||F"

/-- Python `line.split('=', 1)`: the part before the first `'='` and the rest. -/
def pySplitEqFirst (line : String) : String × String :=
  let parts := pySplitCh '=' line
  (parts.headD "", String.intercalate "=" parts.tail)

/-- The `for line in report_list` loop of `create_obx_segments`
(obx_former.py lines 106-134), with its running Set-ID counter `i` and
`heading` state.  Each produced segment is paired with the Set-ID the source
interpolates into it. -/
def obxLoop : List String → Nat → String → List (Nat × String)
  | [], _, _ => []
  | line :: rest, i, heading =>
    if pyStrip line = "" then
      if heading = "Image Library" then
        (i, mkObxST i "IMAGELIBRARY" "DXm image") :: obxLoop rest (i + 1) heading
      else
        obxLoop rest i heading
    else
      if countLeadingSpaces line = 0 then
        if line.toList.contains '=' then
          let line1 := pyStrip (pySplitEqFirst line).1
          let line2 := pyStrip (pySplitEqFirst line).2
          (i, mkObxST i "TITLETAG" line1) ::
            (i + 1, mkObxST (i + 1) "RESULTSTAG" (pyLstripSpaces line2)) ::
            obxLoop rest (i + 2) line
        else
          (i, mkObxST i "TITLETAG" line) :: obxLoop rest (i + 1) line
      else
        (i, mkObxST i "RESULTSTAG" line) :: obxLoop rest (i + 1) heading

/-- `create_obx_segments(report)`, keeping each segment paired with its
Set-ID (`i` starts at 1, `heading` starts empty). -/
def createObxSegmentsIdx (report : String) : List (Nat × String) :=
  obxLoop (pySplitCh '\n' report) 1 ""

/-- `create_obx_segments(report)` (obx_former.py lines 99-136). -/
def createObxSegments (report : String) : String :=
  String.intercalate "\n" ((createObxSegmentsIdx report).map Prod.snd)

/-- `generate_obx_from_mammo_sr(ds)` (obx_former.py lines 139-142); an
exception raised inside `extract_sr_report` propagates. -/
def generateObxFromMammoSr (ds : Dataset) : Except String String :=
  match extractSrReport ds with
  | Except.error e => Except.error e
  | Except.ok report => Except.ok (createObxSegments report)

/-- The Set-IDs used by the report-OBX loop are consecutive, starting at the
initial counter value. -/
theorem obxLoop_setIds_consecutive (lines : List String) :
    ∀ (i : Nat) (heading : String),
      (obxLoop lines i heading).map Prod.fst =
        List.range' i (obxLoop lines i heading).length := by
  induction lines with
  | nil => intro i heading; rfl
  | cons line rest ih =>
    intro i heading
    by_cases hblank : pyStrip line = ""
    · by_cases himg : heading = "Image Library"
      · simp only [obxLoop, if_pos hblank, if_pos himg, List.map_cons,
          List.length_cons, List.range'_succ]
        rw [ih (i + 1) heading]
      · simp only [obxLoop, if_pos hblank, if_neg himg]
        exact ih i heading
    · by_cases hlead : countLeadingSpaces line = 0
      · by_cases heq : line.toList.contains '='
        · simp only [obxLoop, if_neg hblank, if_pos hlead, if_pos heq,
            List.map_cons, List.length_cons, List.range'_succ]
          rw [ih (i + 2) line]
        · simp only [obxLoop, if_neg hblank, if_pos hlead, if_neg heq,
            List.map_cons, List.length_cons, List.range'_succ]
          rw [ih (i + 1) line]
      · simp only [obxLoop, if_neg hblank, if_neg hlead, List.map_cons,
          List.length_cons, List.range'_succ]
        rw [ih (i + 1) heading]

/-- **C10.** For every dataset with no `ContentSequence` attribute,
`extract_sr_report` returns the literal string `"No ContentSequence found."`
(neither an empty report nor an error), and the downstream OBX report builder
(`generate_obx_from_mammo_sr` / `create_obx_segments`) treats this sentence
as report text, emitting it as a single OBX segment. -/
theorem c10_no_content_sequence_sentinel (ds : Dataset)
    (h : ds.contentSequence = none) :
    extractSrReport ds = Except.ok "No ContentSequence found." ∧
    generateObxFromMammoSr ds =
      Except.ok
        "OBX|1|ST|TITLETAG^^AIENGINE||No ContentSequence found.||||||F" := by
  have hr : extractSrReport ds = Except.ok "No ContentSequence found." := by
    unfold extractSrReport
    rw [h]
  refine ⟨hr, ?_⟩
  rw [generateObxFromMammoSr, hr]
  rfl

/-- Witness for C10 at a concrete dataset with no `ContentSequence`. -/
theorem c10_no_content_sequence_sentinel_witness :
    ({ sopInstanceUID := "1.2.3" } : Dataset).contentSequence = none ∧
    (extractSrReport { sopInstanceUID := "1.2.3" } =
        Except.ok "No ContentSequence found." ∧
      generateObxFromMammoSr { sopInstanceUID := "1.2.3" } =
        Except.ok
          "OBX|1|ST|TITLETAG^^AIENGINE||No ContentSequence found.||||||F") :=
  ⟨rfl, c10_no_content_sequence_sentinel { sopInstanceUID := "1.2.3" } rfl⟩

/-! ## UID cross-reference OBX block (hl7_msg_former.py
`generate_sr_obx_UID_segments`, lines 333-406) -/

/-- One raw entry of the `obx_segments` list built by
`generate_sr_obx_UID_segments` before formatting: `[obx_type, identifier,
sub_id, value]` (the `obx_type` element is bound but unused when
formatting — the format string hard-codes `HD`). -/
structure ObxRow where
  rowType : String
  identifier : String
  subId : String
  value : String
deriving Repr, DecidableEq

/-- The `sop_uid_map` assignments in iteration order:
`sop_uid_map[sop_uid] = (series_uid, study_uid)` over both evidence
sequences (hl7_msg_former.py lines 349-360). -/
def sopAssignments (ds : Dataset) : List (String × String × String) :=
  (ds.currentRequestedProcedureEvidenceSequence ++
      ds.pertinentOtherEvidenceSequence).flatMap
    (fun st =>
      st.referencedSeriesSequence.flatMap
        (fun se =>
          se.referencedSOPSequence.map
            (fun ref =>
              (ref.referencedSOPInstanceUID, se.seriesInstanceUID,
                st.studyInstanceUID))))

/-- The built `sop_uid_map`, as an association list in which the most recent
assignment for a key comes first (Python dict assignment overwrites). -/
def sopUidMapOf (ds : Dataset) : List (String × String × String) :=
  (sopAssignments ds).foldl (fun m a => a :: m) []

/-- `sop_uid_map.get(sop_uid, ('', ''))`. -/
def sopMapGet (m : List (String × String × String)) (k : String) :
    String × String :=
  match m.find? (fun a => a.1 = k) with
  | some a => a.2
  | none => ("", "")

/-- The `for ref in item.ReferencedSOPSequence` loop of
`walk_content_sequence` (lines 369-386): emits four UID rows per not-yet-seen
referenced SOP instance, threading the `sub_id` counter and the shared `seen`
set. -/
def walkRefs (m : List (String × String × String)) :
    List RefSOP → Nat → List String → List ObxRow × Nat × List String
  | [], subId, seen => ([], subId, seen)
  | ref :: rest, subId, seen =>
    let sopUid := ref.referencedSOPInstanceUID
    if sopUid ∈ seen then walkRefs m rest subId seen
    else
      let seen' := sopUid :: seen
      let p := sopMapGet m sopUid
      let rows :=
        [⟨"ST", "STUDYINSTANCEUID^Study Instance UID^99IHE", toString subId,
            p.2⟩,
          ⟨"ST", "SERIESINSTANCEUID^Series Instance UID^99IHE", toString subId,
            p.1⟩,
          ⟨"ST", "SOPINSTANCEUID^SOP Instance UID^99IHE", toString subId,
            sopUid⟩,
          ⟨"ST", "SOPCLASSUID^SOP Class UID^99IHE", toString subId,
            ref.referencedSOPClassUID⟩]
      let next := walkRefs m rest (subId + 1) seen'
      (rows ++ next.1, next.2)

mutual

/-- `walk_content_sequence(seq, sub_id_start, seen)` (lines 363-392) on a
single item: its referenced-SOP rows, then the rows of its nested
`ContentSequence`.  The `seen` set is threaded, modelling the single mutable
set shared by the whole recursion of one invocation. -/
def walkItem (m : List (String × String × String)) :
    SRItem → Nat → List String → List ObxRow × Nat × List String
  | .mk f children, subId, seen =>
    let r := walkRefs m f.referencedSOPSequence subId seen
    let n := walkSeq m children r.2.1 r.2.2
    (r.1 ++ n.1, n.2)

/-- `walk_content_sequence` over a list of items in order. -/
def walkSeq (m : List (String × String × String)) :
    List SRItem → Nat → List String → List ObxRow × Nat × List String
  | [], subId, seen => ([], subId, seen)
  | it :: rest, subId, seen =>
    let r := walkItem m it subId seen
    let n := walkSeq m rest r.2.1 r.2.2
    (r.1 ++ n.1, n.2)

end

/-- The full `obx_segments` row list of `generate_sr_obx_UID_segments`: the
SR-document SOP-instance row, then the image-reference rows of the walk
(started at `sub_id_start = 2` with a fresh empty `seen` set). -/
def srObxUIDRows (ds : Dataset) : List ObxRow :=
  ⟨"HD", "SRINSTANCEUID^SR Instance UID^99IHE", "1", ds.sopInstanceUID⟩ ::
    (match ds.contentSequence with
     | some items => (walkSeq (sopUidMapOf ds) items 2 []).1
     | none => [])

/-- The final `seen` set of the walk of one invocation (discarded when the
invocation returns, since the set is local to the nested function). -/
def srObxUIDFinalSeen (ds : Dataset) : List String :=
  match ds.contentSequence with
  | some items => (walkSeq (sopUidMapOf ds) items 2 []).2.2
  | none => []

/-- The `formatted` list (lines 399-402), each segment paired with the Set-ID
`i + 1` that `enumerate` interpolates into it. -/
def srObxUIDFormatted (ds : Dataset) : List (Nat × String) :=
  (srObxUIDRows ds).enum.map
    (fun p =>
      (p.1 + 1,
        "OBX|" ++ toString (p.1 + 1) ++ "|HD|" ++ p.2.identifier ++ "|" ++
          p.2.subId ++ "|" ++ p.2.value ++ "||||||F"))

/-- `generate_sr_obx_UID_segments(ds)` (lines 333-406). -/
def generateSrObxUIDSegments (ds : Dataset) : String :=
  String.intercalate "\n" ((srObxUIDFormatted ds).map Prod.snd)

/-- One invocation of `generate_sr_obx_UID_segments` seen as a transition on
cross-call module state.  The only candidate for state surviving between
conversions is the default-argument cell `seen=set()` of the nested
`walk_content_sequence`; because the nested `def` statement is re-executed on
every outer invocation, that default is re-created empty each time, so the
incoming cell content `cell` is discarded and a fresh empty set is used.  The
returned state is the set the finished walk leaves in the cell. -/
def generateSrObxUIDSegmentsInvoke (cell : List String) (ds : Dataset) :
    String × List String :=
  let _ := cell
  (generateSrObxUIDSegments ds, srObxUIDFinalSeen ds)

/-- The Set-IDs of the UID cross-reference block are `1, 2, …, n` for its
`n` rows. -/
theorem srObxUIDFormatted_setIds (ds : Dataset) :
    (srObxUIDFormatted ds).map Prod.fst =
      List.range' 1 (srObxUIDRows ds).length := by
  unfold srObxUIDFormatted
  rw [List.map_map]
  have h : (Prod.fst ∘ fun p : Nat × ObxRow =>
      ((p.1 + 1 : Nat),
        "OBX|" ++ toString (p.1 + 1) ++ "|HD|" ++ p.2.identifier ++ "|" ++
          p.2.subId ++ "|" ++ p.2.value ++ "||||||F")) =
      (fun p : Nat × ObxRow => p.1 + 1) := rfl
  rw [h]
  have h2 : (fun p : Nat × ObxRow => p.1 + 1) =
      ((fun i => 1 + i) ∘ Prod.fst) := by
    funext p
    simp [Nat.add_comm]
  rw [h2, ← List.map_map, List.enum_map_fst, List.range_eq_range',
    List.map_add_range']

/-- **C9.** The engine holds no state that persists between conversions: the
output of `generate_sr_obx_UID_segments` is independent of any state left
behind by earlier invocations (the walker's `seen` default argument is
re-created empty on every invocation because the `def` is nested), so two
successive invocations on the same input return equal outputs. -/
theorem c9_no_persistent_state_between_conversions (ds : Dataset)
    (cell₁ cell₂ : List String) :
    (generateSrObxUIDSegmentsInvoke cell₁ ds).1 =
      (generateSrObxUIDSegmentsInvoke cell₂ ds).1 ∧
    (generateSrObxUIDSegmentsInvoke
        (generateSrObxUIDSegmentsInvoke cell₁ ds).2 ds).1 =
      (generateSrObxUIDSegmentsInvoke cell₁ ds).1 :=
  ⟨rfl, rfl⟩

/-! ## HL7 segment builders (hl7_msg_former.py) -/

/-- One entry of the canonical record's `patient["name"]` list. -/
structure PatientName0 where
  family : Option String := none
  given : List String := []
deriving Repr, DecidableEq

/-- The canonical record's `patient` section; `name` is `none` when the
`"name"` key is absent (the code then defaults it to `[{}]`). -/
structure PatientSection where
  id : Option String := none
  name : Option (List PatientName0) := none
  gender : Option String := none
  birthDate : Option String := none
deriving Repr, DecidableEq

/-- The canonical record's `study["procedure_code"]` mapping. -/
structure ProcCode where
  code : Option String := none
  display : Option String := none
  system : Option String := none
deriving Repr, DecidableEq

/-- The canonical record's `study` section. -/
structure StudySection where
  date : Option String := none
  accessionNumber : Option String := none
  modality : Option String := none
  studyInstanceUid : Option String := none
  procedureCode : ProcCode := {}
deriving Repr, DecidableEq

/-- The canonical record's `provider` section. -/
structure ProviderSection where
  id : Option String := none
  name : Option String := none
deriving Repr, DecidableEq

/-- One entry of the canonical record's `findings` list (`ftype` is the
`"type"` key, `value` the `"value"` key). -/
structure Finding where
  ftype : Option String := none
  value : Option String := none
deriving Repr, DecidableEq

/-- The canonical (pre-flattened JSON) clinical record accepted by the HL7
builders as the alternate input path. -/
structure CanonicalRecord where
  patient : PatientSection := {}
  study : StudySection := {}
  provider : ProviderSection := {}
  findings : List Finding := []
deriving Repr, DecidableEq

/-- `create_hl7_msh_segment` (lines 7-50); `now` is
`datetime.now().strftime('%Y%m%d%H%M%S')` and `msgId` is `str(uuid.uuid4())`,
passed explicitly.  `scs` is the already-resolved MSH-18 character set. -/
def createHl7MshSegment (now msgId scs : String) : String :=
  String.intercalate "|"
    ["MSH", "^~\\&", "PythonApp", "PythonFacility", "HL7ReceiverApp",
      "HL7ReceiverFacility", now, "", "ORU^R01", msgId, "P", "2.5", "", "",
      "AL", "NE", "USA", scs]

/-- The PID-8 mapping of `create_hl7_pid_segment` (hl7_msg_former.py lines
98-100): upper-case the canonical gender, keep the first letter when it is
`F`/`M`/`O`, otherwise the empty string. -/
def pid8Gender (gender : Option String) : String :=
  let g := pyUpper (gender.getD "")
  if g ≠ "" then
    match g.toList.headD ' ' with
    | 'F' => "F"
    | 'M' => "M"
    | 'O' => "O"
    | _ => ""
  else ""

/-- `create_hl7_pid_segment` on the dict path (lines 72-100). -/
def createHl7PidSegmentJson (rec : CanonicalRecord) : String :=
  let patient := rec.patient
  let field3 := patient.id.getD ""
  let nameData := patient.name.getD [{}]
  let field5 :=
    match nameData with
    | [] => ""
    | nd :: _ =>
      let family := nd.family.getD ""
      let given := nd.given.headD ""
      if family ≠ "" then family ++ "^" ++ given else given
  let dob := patient.birthDate.getD ""
  let field7 := if dob ≠ "" then replaceChar '-' "" dob else ""
  let field8 := pid8Gender patient.gender
  String.intercalate "|"
    ["PID", "1", "", field3, "", field5, "", field7, field8, "", "", "", "",
      "", "", "", "", ""]

/-- `create_hl7_pid_segment` on the DICOM path (lines 102-122). -/
def createHl7PidSegmentDicom (ds : Dataset) : String :=
  let field3 := ds.patientID.getD ""
  let field5 :=
    match ds.patientName with
    | none => ""
    | some n =>
      if n ≠ "" then
        let parts := pySplitCh '^' n
        let family := parts.headD ""
        let given := parts.getD 1 ""
        if given ≠ "" then family ++ "^" ++ given else family
      else ""
  let field7 := ds.patientBirthDate.getD ""
  let field8 := ds.patientSex.getD ""
  String.intercalate "|"
    ["PID", "1", "", field3, "", field5, "", field7, field8, "", "", "", "",
      "", "", "", "", ""]

/-- `create_obr_segment.get_from_json` (lines 141-179): note that, unlike the
DICOM path, this path performs no accession-number check — a missing
`accession_number` key silently becomes the empty string. -/
def createObrSegmentJson (rec : CanonicalRecord) (obrSetId : Nat) : String :=
  let study := rec.study
  let provider := rec.provider
  let procCode := study.procedureCode
  let procedureCodeStr :=
    String.intercalate "^"
      [procCode.code.getD "24606-6",
        procCode.display.getD "Mammogram Diagnostic Report", "LN"]
  let orderingProvider :=
    String.intercalate "^"
      [provider.id.getD "UNKNOWN", provider.name.getD "Unknown Physician"]
  let observationDatetime :=
    if study.date.getD "" ≠ "" then
      replaceChar '-' "" (study.date.getD "") ++ "000000"
    else ""
  let accessionNumber := study.accessionNumber.getD ""
  String.intercalate "|"
    ["OBR", toString obrSetId, "", accessionNumber, procedureCodeStr, "", "",
      "", observationDatetime, "", "", "", "", "", "", "", orderingProvider,
      "", "", accessionNumber, "", "", "", "", "", study.modality.getD ""]

/-- `create_obr_segment.get_from_dicom` (lines 181-230): raises `ValueError`
when the accession number is absent or empty. -/
def createObrSegmentDicom (ds : Dataset) (obrSetId : Nat) :
    Except String String :=
  let studyDate := ds.studyDate.getD ""
  let accessionNumber := ds.accessionNumber.getD ""
  let modality := ds.modality.getD ""
  if accessionNumber = "" then
    Except.error "Accession number is required for OBR segment."
  else
    let codes :=
      match ds.procedureCodeSequence with
      | some (pc :: _) =>
          (pc.codeValue.getD "24606-6",
            pc.codeMeaning.getD "Mammogram Diagnostic Report",
            pc.codingSchemeDesignator.getD "LN")
      | _ => ("24606-6", "Mammogram Diagnostic Report", "LN")
    let procedureCodeStr :=
      String.intercalate "^" [codes.1, codes.2.1, codes.2.2]
    let providerId :=
      match ds.referringPhysicianIdentificationSequence with
      | p :: _ => p.idNumber.getD "UNKNOWN"
      | [] => ""
    let providerName := ds.referringPhysicianName.getD "Anonymous Physician"
    let orderingProvider := providerId ++ "^" ++ providerName
    let observationDatetime :=
      if studyDate ≠ "" then studyDate ++ "000000" else ""
    Except.ok
      (String.intercalate "|"
        ["OBR", toString obrSetId, "", accessionNumber, procedureCodeStr, "",
          "", "", observationDatetime, "", "", "", "", "", "", "",
          orderingProvider, "", accessionNumber, "", "", "", "", "", modality,
          "F"])

/-- `create_obr_segment` (lines 127-237): dispatch over the input union, with
the default `obr_set_id = 1`. -/
def createObrSegment (data : CanonicalRecord ⊕ Dataset) :
    Except String String :=
  match data with
  | Sum.inl rec => Except.ok (createObrSegmentJson rec 1)
  | Sum.inr ds => createObrSegmentDicom ds 1

/-- `create_zds_segment.from_json` (lines 252-257). -/
def createZdsSegmentJson (rec : CanonicalRecord) : Except String String :=
  let uid := pyStrip (rec.study.studyInstanceUid.getD "")
  if uid = "" then
    Except.error "StudyInstanceUID is required in JSON to create ZDS segment."
  else Except.ok ("ZDS|" ++ uid)

/-- `create_zds_segment.from_dicom` (lines 260-267). -/
def createZdsSegmentDicom (ds : Dataset) : Except String String :=
  let studyUid := pyStrip (ds.studyInstanceUID.getD "")
  let seriesUid := pyStrip (ds.seriesInstanceUID.getD "")
  let sopUid := pyStrip ds.sopInstanceUID
  if studyUid = "" then
    Except.error "StudyInstanceUID is required in DICOM to create ZDS segment."
  else Except.ok ("ZDS|" ++ sopUid ++ "|" ++ seriesUid ++ "|" ++ studyUid)

/-- `create_obx_report_segments.from_json` (lines 291-321), each OBX segment
paired with the Set-ID `idx` that `enumerate(findings, start=1)` interpolates
into it.  The finding value is whitespace-collapsed but *not* HL7-escaped. -/
def createObxReportSegmentsJsonIdx (findings : List Finding) :
    List (Nat × String) :=
  findings.enum.map
    (fun p =>
      let idx := p.1 + 1
      let ftype := pyLower (p.2.ftype.getD "text")
      let value := collapseWs (p.2.value.getD "")
      let tagObx2 :=
        if ftype = "rtf" then ("RTFCRTAG", "FT")
        else if ftype = "html" then ("HTMLCRTAG", "ST")
        else ("RESULTSTAG", "ST")
      (idx,
        String.intercalate "|"
          ["OBX", toString idx, tagObx2.2, tagObx2.1 ++ "^^AIENGINE", "",
            value, "", "", "", "", "", "F"]))

/-- `create_obx_report_segments` on the dict path: the joined segment
string. -/
def createObxReportSegmentsJson (data : CanonicalRecord) : String :=
  String.intercalate "\n"
    ((createObxReportSegmentsJsonIdx data.findings).map Prod.snd)

/-- `create_hl7_message` (lines 408-428) on the DICOM path (on the dict path
the call to `generate_sr_obx_UID_segments` dereferences `data.SOPInstanceUID`
on a dict and always raises `AttributeError`, so no dict message is ever
produced).  `now`/`msgId` stand for the MSH wall-clock timestamp and message
control UUID. -/
def createHl7MessageDicom (ds : Dataset) (now msgId : String) :
    Except String String := do
  let scs ← pyAttr ds.specificCharacterSet "SpecificCharacterSet"
  let msh := createHl7MshSegment now msgId scs
  let pid := createHl7PidSegmentDicom ds
  let obr ← createObrSegmentDicom ds 1
  let zds ← createZdsSegmentDicom ds
  let uidBlock := generateSrObxUIDSegments ds
  let obxBlock ← generateObxFromMammoSr ds
  Except.ok (String.intercalate "\n" [msh, pid, obr, zds, uidBlock, obxBlock])

/-- **C2 counterexample.** A canonical (dict) record whose study section
lacks an accession number does *not* make `create_obr_segment` raise: the
dict path performs no check, and an OBR segment with an empty
filler-order-number field (OBR-3) is produced. -/
theorem c2_counterexample_json_missing_accession_produces_obr :
    createObrSegment (Sum.inl {}) =
      Except.ok
        "OBR|1|||24606-6^Mammogram Diagnostic Report^LN||||||||||||UNKNOWN^Unknown Physician|||||||||" ∧
    ∀ e, createObrSegment (Sum.inl {}) ≠ Except.error e :=
  ⟨rfl, fun _ h => Except.noConfusion h⟩

/-- **C2 amended.** Only the DICOM-dataset path of `create_obr_segment`
checks the accession number: there, construction fails with `ValueError` iff
the accession number is absent or empty, and succeeds otherwise; on the dict
(canonical-record) path construction always succeeds, the accession number
silently defaulting to the empty string. -/
theorem c2_amended_obr_accession_check_only_on_dicom_path :
    (∀ (ds : Dataset) (i : Nat),
        (∃ e, createObrSegmentDicom ds i = Except.error e) ↔
          ds.accessionNumber.getD "" = "") ∧
    ∀ rec : CanonicalRecord, ∃ s, createObrSegment (Sum.inl rec) =
      Except.ok s := by
  constructor
  · intro ds i
    constructor
    · rintro ⟨e, he⟩
      by_contra hne
      simp only [createObrSegmentDicom, if_neg hne] at he
      exact Except.noConfusion he
    · intro h
      refine ⟨"Accession number is required for OBR segment.", ?_⟩
      simp only [createObrSegmentDicom, if_pos h]
  · intro rec
    exact ⟨_, rfl⟩

/-- A line of an HL7 message is an OBX segment when it starts with `OBX|`. -/
def isObxLine (l : String) : Bool :=
  l.toList.take 4 = ['O', 'B', 'X', '|']

/-- Reading of a decimal digit string as a number (observation helper for
extracting Set-IDs). -/
def digitsToNat (s : String) : Nat :=
  s.toList.foldl (fun n c => n * 10 + (c.toNat - 48)) 0

/-- The OBX Set-IDs of an HL7 message, in order: field 1 of every `OBX`
segment line. -/
def obxSetIds (msg : String) : List Nat :=
  ((pySplitCh '\n' msg).filter isObxLine).map
    (fun l => digitsToNat ((pySplitCh '|' l).getD 1 ""))

/-- A concrete DICOM SR dataset with one TEXT finding, used to exercise
`create_hl7_message`. -/
def dsFinding : Dataset :=
  { patientID := some "P1"
    patientSex := some "F"
    specificCharacterSet := some "ISO_IR 100"
    studyDate := some "20250101"
    accessionNumber := some "ACC1"
    modality := some "MG"
    studyInstanceUID := some "9.9"
    seriesInstanceUID := some "8.8"
    sopInstanceUID := "1.2.3"
    contentSequence :=
      some
        [SRItem.mk
          { conceptNameCodeSequence :=
              some [{ codeMeaning := some "Finding" }]
            valueType := some "TEXT"
            textValue := some "abc" } []] }

/-- **C5 counterexample.** In the complete HL7 message that
`create_hl7_message` produces for `dsFinding`, the OBX Set-IDs are
`[1, 1, 2]`: the UID cross-reference block numbers its single row `1`, and
the report block *restarts* at `1` instead of continuing the counter, so the
Set-IDs do not form a single strictly increasing sequence shared across both
OBX blocks. -/
theorem c5_counterexample_setIds_not_shared_across_blocks :
    (match createHl7MessageDicom dsFinding "20250101120000" "MSG-1" with
      | Except.ok msg => obxSetIds msg
      | Except.error _ => []) = [1, 1, 2] ∧
    ¬ List.Chain' (· < ·) [1, 1, 2] :=
  ⟨rfl, fun h => absurd (List.chain'_cons.mp h).1 (lt_irrefl 1)⟩

/-- **C5 amended.** Within each OBX block separately the Set-IDs are the
consecutive integers `1, 2, …` (so each block on its own is strictly
increasing from 1), but the counter is not shared between the two blocks:
the report block begins again at 1 after the UID cross-reference block. -/
theorem c5_amended_setIds_consecutive_within_each_block :
    (∀ ds : Dataset,
        (srObxUIDFormatted ds).map Prod.fst =
          List.range' 1 (srObxUIDFormatted ds).length) ∧
    ∀ report : String,
      (createObxSegmentsIdx report).map Prod.fst =
        List.range' 1 (createObxSegmentsIdx report).length := by
  constructor
  · intro ds
    rw [srObxUIDFormatted_setIds]
    have h : (srObxUIDFormatted ds).length = (srObxUIDRows ds).length := by
      simp [srObxUIDFormatted]
    rw [h]
  · intro report
    exact obxLoop_setIds_consecutive _ 1 ""

/-! ## HL7 escaping (DICOMSR_HL7_FHIR_Writer_Swagger.py `escape_hl7`,
`build_hl7_message`) -/

/-- `escape_hl7(text)` (Swagger module lines 16-27): four sequential
`str.replace` passes, backslash first. -/
def escapeHl7 (text : String) : String :=
  replaceChar '&' "\\T\\"
    (replaceChar '^' "\\S\\"
      (replaceChar '|' "\\F\\"
        (replaceChar '\\' "\\E\\" text)))

/-- The per-character HL7 escape mapping: each delimiter goes to its escape
sequence exactly once. -/
def escChar (c : Char) : List Char :=
  if c = '\\' then ['\\', 'E', '\\']
  else if c = '|' then ['\\', 'F', '\\']
  else if c = '^' then ['\\', 'S', '\\']
  else if c = '&' then ['\\', 'T', '\\']
  else [c]

/-- The OBX block of `build_hl7_message` (Swagger module lines 97-99): one
`TX` OBX per finding, its OBX-5 value being the `escape_hl7` of the finding
text. -/
def buildHl7ObxBlock (findings : List String) : String :=
  String.join
    (findings.enum.map
      (fun p =>
        "OBX|" ++ toString (p.1 + 1) ++ "|TX|||" ++ escapeHl7 p.2 ++
          "||||||F\n"))

theorem escHead (x : Char) :
    ((((if x = '\\' then "\\E\\".toList else [x]).flatMap
        (fun y => if y = '|' then "\\F\\".toList else [y])).flatMap
        (fun y => if y = '^' then "\\S\\".toList else [y])).flatMap
        (fun y => if y = '&' then "\\T\\".toList else [y])) = escChar x := by
  by_cases h1 : x = '\\'
  · subst h1; rfl
  · by_cases h2 : x = '|'
    · subst h2; rfl
    · by_cases h3 : x = '^'
      · subst h3; rfl
      · by_cases h4 : x = '&'
        · subst h4; rfl
        · simp [escChar, h1, h2, h3, h4]

/-- The four sequential replaces of `escape_hl7` amount to a single
left-to-right pass that maps every character through `escChar` exactly once
(in particular the backslashes introduced by one replacement are never
re-escaped by a later one). -/
theorem escapeHl7_single_pass (s : String) :
    escapeHl7 s = String.mk (s.toList.flatMap escChar) := by
  have key : ∀ l : List Char,
      ((((l.flatMap (fun x => if x = '\\' then "\\E\\".toList else [x])).flatMap
          (fun x => if x = '|' then "\\F\\".toList else [x])).flatMap
          (fun x => if x = '^' then "\\S\\".toList else [x])).flatMap
          (fun x => if x = '&' then "\\T\\".toList else [x])) =
        l.flatMap escChar := by
    intro l
    induction l with
    | nil => rfl
    | cons x xs ih =>
      simp only [List.flatMap_cons, List.flatMap_append]
      exact congrArg₂ (· ++ ·) (escHead x) ih
  show String.mk _ = _
  exact congrArg String.mk (key s.toList)

theorem escChar_no_delims (a : Char) :
    '|' ∉ escChar a ∧ '^' ∉ escChar a ∧ '&' ∉ escChar a := by
  by_cases h1 : a = '\\'
  · subst h1; refine ⟨?_, ?_, ?_⟩ <;> decide
  · by_cases h2 : a = '|'
    · subst h2; refine ⟨?_, ?_, ?_⟩ <;> decide
    · by_cases h3 : a = '^'
      · subst h3; refine ⟨?_, ?_, ?_⟩ <;> decide
      · by_cases h4 : a = '&'
        · subst h4; refine ⟨?_, ?_, ?_⟩ <;> decide
        · simp [escChar, h1, h2, h3, h4]
          exact ⟨fun h => h2 h.symm, fun h => h3 h.symm, fun h => h4 h.symm⟩

/-- **C6 counterexample.** `create_obx_report_segments` (hl7_msg_former.py,
dict path) inserts the finding value into the OBX-5 field *without* HL7
escaping: the input value `a|b` appears verbatim in the produced segment
(shifting the remaining fields), whereas escaping it would have produced
`a\F\b`. -/
theorem c6_counterexample_obx_value_inserted_unescaped :
    createObxReportSegmentsJson
        { findings := [{ ftype := some "text", value := some "a|b" }] } =
      "OBX|1|ST|RESULTSTAG^^AIENGINE||a|b||||||F" ∧
    escapeHl7 "a|b" = "a\\F\\b" ∧
    ("a|b" : String) ≠ escapeHl7 "a|b" :=
  ⟨rfl, rfl, by decide⟩

/-- **C6 amended.** HL7 escaping is implemented and applied only in the
Swagger-module `build_hl7_message` OBX block: `escape_hl7` replaces each
occurrence of `\`, `|`, `^`, `&` by its escape sequence exactly once (a
single left-to-right pass; escaping `|` yields `\F\`, and no `|`, `^` or `&`
survives in an escaped value), and every OBX-5 value of that block is the
single-pass escape of the finding text.  The hl7_msg_former.py segment
builders (`create_obx_report_segments` among them) insert field values with
no escaping, as the counterexample shows. -/
theorem c6_amended_escaping_single_pass_only_in_swagger_obx :
    (∀ s : String, escapeHl7 s = String.mk (s.toList.flatMap escChar)) ∧
    escapeHl7 "|" = "\\F\\" ∧
    (∀ s : String, '|' ∉ (escapeHl7 s).toList ∧ '^' ∉ (escapeHl7 s).toList ∧
      '&' ∉ (escapeHl7 s).toList) ∧
    ∀ findings : List String,
      buildHl7ObxBlock findings =
        String.join
          (findings.enum.map
            (fun p =>
              "OBX|" ++ toString (p.1 + 1) ++ "|TX|||" ++
                String.mk (p.2.toList.flatMap escChar) ++ "||||||F\n")) := by
  refine ⟨escapeHl7_single_pass, rfl, ?_, ?_⟩
  · intro s
    rw [escapeHl7_single_pass]
    have hmem : ∀ c : Char, c ∈ (String.mk (s.toList.flatMap escChar)).toList ↔
        ∃ a ∈ s.toList, c ∈ escChar a := by
      intro c
      show c ∈ s.toList.flatMap escChar ↔ _
      exact List.mem_flatMap
    refine ⟨?_, ?_, ?_⟩
    · rw [hmem]
      rintro ⟨a, _, hc⟩
      exact (escChar_no_delims a).1 hc
    · rw [hmem]
      rintro ⟨a, _, hc⟩
      exact (escChar_no_delims a).2.1 hc
    · rw [hmem]
      rintro ⟨a, _, hc⟩
      exact (escChar_no_delims a).2.2 hc
  · intro findings
    unfold buildHl7ObxBlock
    have h : (fun p : Nat × String =>
        "OBX|" ++ toString (p.1 + 1) ++ "|TX|||" ++ escapeHl7 p.2 ++
          "||||||F\n") =
        (fun p : Nat × String =>
        "OBX|" ++ toString (p.1 + 1) ++ "|TX|||" ++
          String.mk (p.2.toList.flatMap escChar) ++ "||||||F\n") := by
      funext p
      rw [escapeHl7_single_pass]
    rw [h]

/-! ## Date normalization and gender mappings (dicom_to_fhir.py,
dicom_to_json.py) -/

/-- `format_dicom_date(date_str)` (dicom_to_fhir.py lines 15-31 and
fhir_message_genrate.py lines 110-126): empty/absent input yields `""`; any
other input is sliced as `date_str[:4] + "-" + date_str[4:6] + "-" +
date_str[6:8]`.  Python string slicing never raises, so the `except` branch
is unreachable and the function is total. -/
def formatDicomDate (s : String) : String :=
  if s = "" then ""
  else pySlice s 0 4 ++ "-" ++ pySlice s 4 6 ++ "-" ++ pySlice s 6 8

/-- The DICOM→canonical gender mapping shared by
`extract_custom_patient_info` (dicom_to_json.py lines 26-27) and
`extract_patient_info` (dicom_to_fhir.py lines 91-99): lower-case the source
code, `m → male`, `f → female`, anything else `→ other`. -/
def dicomGenderToCanonical (patientSex : Option String) : String :=
  let g := pyLower (patientSex.getD "unknown")
  if g = "m" then "male" else if g = "f" then "female" else "other"

/-- **C7 counterexample.** `format_dicom_date` neither passes an
already-hyphenated string through unchanged nor returns the empty string on
malformed input: it unconditionally re-slices every nonempty input. -/
theorem c7_counterexample_hyphenated_and_malformed_inputs :
    formatDicomDate "1985-03-15" = "1985--0-3-" ∧
    formatDicomDate "1985-03-15" ≠ "1985-03-15" ∧
    formatDicomDate "abc" = "abc--" ∧
    formatDicomDate "abc" ≠ "" :=
  ⟨rfl, by decide, rfl, by decide⟩

/-- **C7 amended.** `format_dicom_date` returns the empty string exactly for
the empty/absent input and otherwise always returns the slice
`s[:4] + "-" + s[4:6] + "-" + s[6:8]` without ever throwing (it is a total
function); on an 8-character input — in particular an 8-digit `YYYYMMDD`
string — this is the hyphenated `YYYY-MM-DD` form.  Hyphenated or otherwise
malformed inputs are re-sliced by the same rule, not passed through and not
mapped to the empty string. -/
theorem c7_amended_formatDicomDate_slices_every_nonempty_input :
    (∀ c₁ c₂ c₃ c₄ c₅ c₆ c₇ c₈ : Char,
        formatDicomDate (String.mk [c₁, c₂, c₃, c₄, c₅, c₆, c₇, c₈]) =
          String.mk [c₁, c₂, c₃, c₄, '-', c₅, c₆, '-', c₇, c₈]) ∧
    (∀ s : String, formatDicomDate s = "" ↔ s = "") ∧
    formatDicomDate "19850315" = "1985-03-15" := by
  refine ⟨?_, ?_, rfl⟩
  · intro c₁ c₂ c₃ c₄ c₅ c₆ c₇ c₈
    have h : String.mk [c₁, c₂, c₃, c₄, c₅, c₆, c₇, c₈] ≠ "" := by
      intro h
      exact List.noConfusion (congrArg String.toList h)
    rw [formatDicomDate, if_neg h]
    rfl
  · intro s
    constructor
    · intro h
      by_contra hs
      rw [formatDicomDate, if_neg hs] at h
      have hlen := congrArg String.length h
      simp only [String.length_append] at hlen
      have hone : ("-" : String).length = 1 := rfl
      have hzero : ("" : String).length = 0 := rfl
      omega
    · intro h
      rw [h]
      rfl

/-- **C8.** The two gender mappings compose consistently on the defined enum
values: DICOM `"F"` extracts to canonical `"female"` (and `"M"` to
`"male"`), canonical `"female"` renders PID-8 `"F"` (and `"male"` renders
`"M"`), so DICOM-to-canonical followed by canonical-to-HL7 returns the
original code for `F` and `M`. -/
theorem c8_gender_mappings_round_trip :
    dicomGenderToCanonical (some "F") = "female" ∧
    dicomGenderToCanonical (some "M") = "male" ∧
    pid8Gender (some "female") = "F" ∧
    pid8Gender (some "male") = "M" ∧
    pid8Gender (some (dicomGenderToCanonical (some "F"))) = "F" ∧
    pid8Gender (some (dicomGenderToCanonical (some "M"))) = "M" :=
  ⟨rfl, rfl, rfl, rfl, rfl, rfl⟩

/-! ## FHIR resource builders (dicom_to_fhir.py and fhir_message_genrate.py) -/

/-- A FHIR coding entry; keys present only when the dict literal sets them. -/
structure Coding where
  code : Option String := none
  display : Option String := none
  system : Option String := none
deriving Repr, DecidableEq

/-- A FHIR narrative (`text`) field. -/
structure Narrative where
  status : String := "generated"
  div : String := ""
deriving Repr, DecidableEq

/-- The XHTML wrapper of `generate_narrative`. -/
def xhtmlDiv (content : String) : String :=
  "<div xmlns=\"http://www.w3.org/1999/xhtml\">" ++ content ++ "</div>"

/-- The FHIR `Patient` resource as built by `extract_patient_info`. -/
structure PatientR where
  id : String
  identifierValue : String
  family : String
  given : List String
  gender : String
  birthDate : Option String
  text : Narrative
deriving Repr, DecidableEq

/-- The FHIR `ImagingStudy` resource as built by `extract_study_info`
(fhir_message_genrate.py only). -/
structure ImagingStudyR where
  id : String
  identifierUid : String
  identifierAccession : Option String
  status : String
  subjectRef : String
  started : Option String
  text : Narrative
deriving Repr, DecidableEq

/-- A FHIR `Observation` resource as built by either observation
extractor. -/
structure ObservationR where
  id : String
  status : String := "final"
  coding : Coding
  subjectRef : String
  valueString : String
  performerDisplay : String := "Radiologist System"
  text : Narrative
  effectiveDateTime : Option String := none
  identifierUid : Option String := none
deriving Repr, DecidableEq

/-- The FHIR `DiagnosticReport` resource as built by
`create_diagnostic_report`. -/
structure DiagnosticReportR where
  id : String
  status : String := "final"
  coding : Coding
  subjectRef : String
  effectiveDateTime : String
  issued : String
  performerDisplay : String
  result : List String
  identifierUid : String
  text : Narrative
deriving Repr, DecidableEq

/-- A resource of the produced Bundle. -/
inductive FhirResource where
  | patient (p : PatientR)
  | imagingStudy (s : ImagingStudyR)
  | observation (o : ObservationR)
  | diagnosticReport (r : DiagnosticReportR)
deriving Repr, DecidableEq

/-- One Bundle entry: `{"fullUrl": …, "resource": …}`. -/
structure BundleEntry where
  fullUrl : String
  resource : FhirResource
deriving Repr, DecidableEq

/-- The produced FHIR Bundle (`resourceType: Bundle`, `type: collection`). -/
structure Bundle where
  entry : List BundleEntry
deriving Repr, DecidableEq

/-- All `reference` strings occurring in a resource
(`Observation.subject`, `ImagingStudy.subject`, `DiagnosticReport.subject`
and `DiagnosticReport.result`). -/
def FhirResource.refs : FhirResource → List String
  | .patient _ => []
  | .imagingStudy s => [s.subjectRef]
  | .observation o => [o.subjectRef]
  | .diagnosticReport r => r.subjectRef :: r.result

/-- Referential closure of a Bundle: every `reference` string of every
resource equals the `fullUrl` of some entry of the same bundle. -/
def refClosedB (b : Bundle) : Bool :=
  b.entry.all
    (fun e =>
      e.resource.refs.all (fun r => b.entry.any (fun e2 => e2.fullUrl = r)))

/-- `extract_patient_info(ds)` (identical in dicom_to_fhir.py lines 67-125
and fhir_message_genrate.py lines 165-222); `uuid` is the generated resource
id. -/
def extractPatientInfo (ds : Dataset) (uuid : String) : PatientR :=
  let patientId := ds.patientID.getD ""
  let patientName := ds.patientName.getD ""
  let nameParts := if patientName ≠ "" then pySplitCh '^' patientName else []
  let familyName := nameParts.headD ""
  let givenNames := if nameParts.length > 1 then nameParts.tail else []
  let rawBirthDate := pyStrip (ds.patientBirthDate.getD "")
  let birthDate :=
    if rawBirthDate ≠ "" ∧ rawBirthDate.toList.length = 8 ∧
        pyIsDigit rawBirthDate = true then
      some (pySlice rawBirthDate 0 4 ++ "-" ++ pySlice rawBirthDate 4 6 ++
        "-" ++ pySlice rawBirthDate 6 8)
    else none
  let gender := dicomGenderToCanonical ds.patientSex
  let narrativeName :=
    pyStrip (String.intercalate " " givenNames ++ " " ++ familyName)
  { id := uuid
    identifierValue := patientId
    family := familyName
    given := givenNames
    gender := gender
    birthDate := birthDate
    text :=
      { div :=
          xhtmlDiv
            ("Patient: " ++ narrativeName ++ " (ID: " ++ patientId ++ ")") } }

/-- `extract_study_info(ds, patient_reference)` (fhir_message_genrate.py
lines 225-265). -/
def extractStudyInfoGen (ds : Dataset) (patientReference uuid : String) :
    ImagingStudyR :=
  let studyUid := ds.studyInstanceUID.getD ""
  let accessionNumber := ds.accessionNumber.getD ""
  let studyDate := ds.studyDate.getD ""
  let studyTime := ds.studyTime.getD ""
  let started :=
    if studyDate ≠ "" ∧ studyDate.toList.length = 8 then
      let d := pySlice studyDate 0 4 ++ "-" ++ pySlice studyDate 4 6 ++ "-" ++
        pySlice studyDate 6 8
      if studyTime ≠ "" ∧ studyTime.toList.length ≥ 6 then
        d ++ "T" ++ pySlice studyTime 0 2 ++ ":" ++ pySlice studyTime 2 4 ++
          ":" ++ pySlice studyTime 4 6 ++ "Z"
      else d
    else ""
  { id := uuid
    identifierUid := studyUid
    identifierAccession :=
      if accessionNumber ≠ "" then some accessionNumber else none
    status := "registered"
    subjectRef := patientReference
    started := if started ≠ "" then some started else none
    text := { div := xhtmlDiv "ImagingStudy Resource" } }

/-- One iteration body of the report-line loop of `extract_observations`
(fhir_message_genrate.py lines 291-334), for the line finally processed
(after a blank line inside an `Image Library` heading has been replaced by
`"DXm image"`).  The accesses `ds.StudyDate` / `ds.StudyTime` are direct
attribute accesses and raise `AttributeError` when absent. -/
def mkObsGen (ds : Dataset) (patientRef uuid line : String) :
    Except String ObservationR := do
  let lineData := pyLstrip line
  let parts := pySplitCh '=' lineData
  let valueString :=
    if lineData.toList.contains '=' then pyStrip (parts.getD 1 "")
    else lineData
  let sd ← pyAttr ds.studyDate "StudyDate"
  let st ← pyAttr ds.studyTime "StudyTime"
  let studyDate := formatDicomDate sd
  let studyTime := pyStrip st
  let eff :=
    if studyTime.toList.length ≥ 6 ∧ pyIsDigit studyTime = true then
      some (studyDate ++ "T" ++ pySlice studyTime 0 2 ++ ":" ++
        pySlice studyTime 2 4 ++ ":" ++ pySlice studyTime 4 6 ++ "Z")
    else if studyDate ≠ "" then some studyDate
    else none
  Except.ok
    { id := uuid
      coding := { system := some "http://loinc.org" }
      subjectRef := "Patient/" ++ patientRef
      valueString := valueString
      text :=
        { div :=
            if line ≠ "" then xhtmlDiv ("Observation:" ++ line)
            else xhtmlDiv "Observation Resource" }
      effectiveDateTime := eff }

/-- The report-line loop of `extract_observations` (fhir_message_genrate.py
lines 271-336): `heading` tracks the most recent column-0 line (updated
*before* the blank test), a blank line produces a synthetic `DXm image`
observation only under the `Image Library` heading, and every other
non-blank line produces one observation.  `k` threads the uuid-generator
counter. -/
def extractObsLoopGen (ds : Dataset) (patientRef : String)
    (gen : Nat → String) :
    List String → String → Nat → Except String (List ObservationR × Nat)
  | [], _, k => Except.ok ([], k)
  | line :: rest, heading0, k =>
    let heading := if countLeadingSpaces line = 0 then line else heading0
    if pyStrip line = "" then
      if heading = "Image Library" then do
        let obs ← mkObsGen ds patientRef (gen k) "DXm image"
        let r ← extractObsLoopGen ds patientRef gen rest heading (k + 1)
        Except.ok (obs :: r.1, r.2)
      else extractObsLoopGen ds patientRef gen rest heading k
    else do
      let obs ← mkObsGen ds patientRef (gen k) line
      let r ← extractObsLoopGen ds patientRef gen rest heading (k + 1)
      Except.ok (obs :: r.1, r.2)

/-- `create_diagnostic_report(patient_ref, observations, ds)` (identical in
dicom_to_fhir.py lines 217-286 and fhir_message_genrate.py lines 341-410);
`resultIds` are the ids of the observation resources, `nowIso` stands for
`datetime.utcnow().isoformat()`. -/
def createDiagnosticReport (ds : Dataset) (patientRef : String)
    (resultIds : List String) (uuid nowIso : String) : DiagnosticReportR :=
  let studyDate := formatDicomDate (ds.studyDate.getD "")
  let studyTime0 := ds.studyTime.getD ""
  let studyTime :=
    if studyTime0 ≠ "" then
      pySlice studyTime0 0 2 ++ ":" ++ pySlice studyTime0 2 4 ++ ":" ++
        pySlice studyTime0 4 6
    else studyTime0
  let effectiveDateTime :=
    if studyDate ≠ "" ∧ studyTime ≠ "" then studyDate ++ "T" ++ studyTime ++ "Z"
    else studyDate
  let coding :=
    match ds.procedureCodeSequence with
    | some (pc :: _) =>
        ({ code := some (pc.codeValue.getD "24606-6")
           display := some (pc.codeMeaning.getD "Mammogram Diagnostic Report")
           system :=
             some (pc.codingSchemeDesignator.getD "http://loinc.org") } :
          Coding)
    | _ =>
        { code := some "24606-6"
          display := some "MG Breast Screening"
          system := some "http://loinc.org" }
  { id := uuid
    coding := coding
    subjectRef := "Patient/" ++ patientRef
    effectiveDateTime := effectiveDateTime
    issued := nowIso ++ "Z"
    performerDisplay := ds.referringPhysicianName.getD "Unknown Physician"
    result := resultIds.map (fun i => "urn:uuid:" ++ i)
    identifierUid := ds.studyInstanceUID.getD ""
    text :=
      { div :=
          xhtmlDiv ("Diagnostic Report: " ++ coding.display.getD "") } }

/-- The bundle assembled by the final iteration of the (mis-indented)
observation loop of `dicom_to_fhir` (fhir_message_genrate.py lines 427-458),
for a nonempty observation list: by the last iteration every observation's
`subject` has been re-pointed at the patient `urn:uuid:`; the diagnostic
report has been re-created once per observation (one uuid each, counter
continuing at `k`; the last creation, with uuid index
`k + observations.length - 1`, wins). -/
def assembleGenBundle (ds : Dataset) (gen : Nat → String) (nowIso : String)
    (patient : PatientR) (studyResource : ImagingStudyR)
    (observations : List ObservationR) (k : Nat) : Bundle :=
  let patientId := patient.id
  let patientRef := "urn:uuid:" ++ patientId
  let fixedObs :=
    observations.map (fun o => { o with subjectRef := patientRef })
  let drUuid := gen (k + observations.length - 1)
  let dr :=
    createDiagnosticReport ds patientId (observations.map (·.id)) drUuid
      nowIso
  let dr := { dr with subjectRef := patientRef }
  { entry :=
      { fullUrl := "urn:uuid:" ++ patientId
        resource := FhirResource.patient patient } ::
        { fullUrl := "urn:uuid:" ++ studyResource.id
          resource := FhirResource.imagingStudy studyResource } ::
        (fixedObs.map
          (fun o =>
            { fullUrl := "urn:uuid:" ++ o.id
              resource := FhirResource.observation o })) ++
        [{ fullUrl := "urn:uuid:" ++ dr.id
           resource := FhirResource.diagnosticReport dr }] }

/-- `dicom_to_fhir(ds)` of fhir_message_genrate.py (lines 413-464).  The
observation-fixing loop also contains (mis-indented) the creation of the
diagnostic report and of the `entries` list, so: the diagnostic report is
re-created once per observation (the last creation wins), and with zero
observations the local variable `entries` is never assigned and the final
`return` raises `UnboundLocalError`. -/
def dicomToFhirGenFrom (ds : Dataset) (gen : Nat → String) (nowIso : String)
    (report : String) : Except String Bundle :=
  let patient := extractPatientInfo ds (gen 0)
  let patientId := patient.id
  let studyResource := extractStudyInfoGen ds ("urn:uuid:" ++ patientId) (gen 1)
  match extractObsLoopGen ds patientId gen (pySplitCh '\n' report) "" 2 with
  | Except.error e => Except.error e
  | Except.ok r =>
    match r.1 with
    | [] =>
        Except.error
          "UnboundLocalError: local variable 'entries' referenced before assignment"
    | o :: os =>
        Except.ok
          (assembleGenBundle ds gen nowIso patient studyResource (o :: os)
            r.2)

/-- `dicom_to_fhir(ds)` of fhir_message_genrate.py: `extract_sr_report`
first (its exception propagates), then everything downstream of the
report. -/
def dicomToFhirGen (ds : Dataset) (gen : Nat → String) (nowIso : String) :
    Except String Bundle :=
  match extractSrReport ds with
  | Except.error e => Except.error e
  | Except.ok report => dicomToFhirGenFrom ds gen nowIso report

/-- The `ObservationDateTime`/study-date fallback of
`extract_observations.process_content_sequence` (dicom_to_fhir.py lines
185-198). -/
def obsPyEffective (ds : Dataset) (f : SRFields) : Option String :=
  let fallback :=
    if ds.studyDate.isSome ∧ ds.studyTime.isSome then
      let studyDate := formatDicomDate (ds.studyDate.getD "")
      let studyTime := pyStrip (ds.studyTime.getD "")
      if studyTime.toList.length ≥ 6 ∧ pyIsDigit studyTime = true then
        some (studyDate ++ "T" ++ pySlice studyTime 0 2 ++ ":" ++
          pySlice studyTime 2 4 ++ ":" ++ pySlice studyTime 4 6 ++ "Z")
      else if studyDate ≠ "" then some studyDate
      else none
    else none
  match f.observationDateTime with
  | some odt0 =>
    if odt0 ≠ "" then
      let odt := pyStrip odt0
      if odt.toList.length = 14 ∧ pyIsDigit odt = true then
        some (pySlice odt 0 4 ++ "-" ++ pySlice odt 4 6 ++ "-" ++
          pySlice odt 6 8 ++ "T" ++ pySlice odt 8 10 ++ ":" ++
          pySlice odt 10 12 ++ ":" ++ pySlice odt 12 14 ++ "Z")
      else none
    else fallback
  | none => fallback

mutual

/-- `extract_observations.process_content_sequence` (dicom_to_fhir.py lines
140-213) on one item: an observation is created when the item has a
`TextValue`; the item's concept-name coding (when present) is used,
otherwise the fixed `24606-6` LOINC coding; then the nested
`ContentSequence` is processed.  `k` threads the uuid counter. -/
def extractObsPyItem (ds : Dataset) (patientRef : String) (gen : Nat → String) :
    SRItem → Nat → List ObservationR × Nat
  | .mk f children, k =>
    -- `hasattr(item, 'ConceptNameCodeSequence')` then `[0]` with `.get`
    -- defaults.  A present-but-empty sequence would raise `IndexError` in
    -- the source; that crash path is collapsed to `none` here — it only
    -- affects inputs on which the real builder returns nothing, so the
    -- claims about bundles actually returned are unaffected.
    let code : Option Coding :=
      match f.conceptNameCodeSequence with
      | some (c :: _) =>
          some
            { code := some (c.codeValue.getD "24606-6")
              display := some (c.codeMeaning.getD "Mammogram observation")
              system :=
                some (c.codingSchemeDesignator.getD "http://loinc.org") }
      | _ => none
    let own :=
      match f.textValue with
      | some tv =>
          let coding :=
            code.getD
              { code := some "24606-6"
                display := some "MG Breast Screening"
                system := some "http://loinc.org" }
          [({ id := gen k
              coding := coding
              subjectRef := "Patient/" ++ patientRef
              valueString := tv
              text :=
                { div :=
                    xhtmlDiv
                      ("Observation: " ++ coding.display.getD "" ++ " - " ++
                        tv) }
              effectiveDateTime := obsPyEffective ds f
              identifierUid := f.observationUID } : ObservationR)]
      | none => []
    let k1 := if f.textValue.isSome then k + 1 else k
    let rest := extractObsPySeq ds patientRef gen children k1
    (own ++ rest.1, rest.2)

/-- `process_content_sequence` over a sequence of items in order. -/
def extractObsPySeq (ds : Dataset) (patientRef : String) (gen : Nat → String) :
    List SRItem → Nat → List ObservationR × Nat
  | [], k => ([], k)
  | it :: rest, k =>
    let r := extractObsPyItem ds patientRef gen it k
    let n := extractObsPySeq ds patientRef gen rest r.2
    (r.1 ++ n.1, n.2)

end

/-- `dicom_to_fhir(dicom_path)` of dicom_to_fhir.py (lines 288-340), after
the excluded shell has decoded the file into `ds`: Patient, one Observation
per TextValue content item, and a DiagnosticReport, assembled into a
`collection` Bundle.  This version is total: it has no unbound-variable path
and never dereferences `StudyDate` unguarded. -/
def dicomToFhirPy (ds : Dataset) (gen : Nat → String) (nowIso : String) :
    Bundle :=
  let patient := extractPatientInfo ds (gen 0)
  let patientId := patient.id
  let patientRef := "urn:uuid:" ++ patientId
  let observations :=
    (match ds.contentSequence with
     | some items => (extractObsPySeq ds patientId gen items 1).1
     | none => [])
  let fixedObs := observations.map (fun o => { o with subjectRef := patientRef })
  let drUuid := gen (1 + observations.length)
  let dr :=
    createDiagnosticReport ds patientId (observations.map (·.id)) drUuid nowIso
  let dr := { dr with subjectRef := patientRef }
  { entry :=
      { fullUrl := "urn:uuid:" ++ patientId
        resource := FhirResource.patient patient } ::
        (fixedObs.map
          (fun o =>
            { fullUrl := "urn:uuid:" ++ o.id
              resource := FhirResource.observation o })) ++
        [{ fullUrl := "urn:uuid:" ++ dr.id
           resource := FhirResource.diagnosticReport dr }] }

theorem refClosed_assembled (patient : PatientR) (patientId : String)
    (studies : List ImagingStudyR) (obs : List ObservationR)
    (dr : DiagnosticReportR)
    (hstudy : ∀ s ∈ studies, s.subjectRef = "urn:uuid:" ++ patientId)
    (hobs : ∀ o ∈ obs, o.subjectRef = "urn:uuid:" ++ patientId)
    (hdr : dr.subjectRef = "urn:uuid:" ++ patientId)
    (hres : ∀ r ∈ dr.result, ∃ o ∈ obs, r = "urn:uuid:" ++ o.id) :
    refClosedB
      { entry :=
          ({ fullUrl := "urn:uuid:" ++ patientId
             resource := FhirResource.patient patient } : BundleEntry) ::
            studies.map
              (fun s =>
                { fullUrl := "urn:uuid:" ++ s.id
                  resource := FhirResource.imagingStudy s }) ++
            obs.map
              (fun o =>
                { fullUrl := "urn:uuid:" ++ o.id
                  resource := FhirResource.observation o }) ++
            [{ fullUrl := "urn:uuid:" ++ dr.id
               resource := FhirResource.diagnosticReport dr }] } = true := by
  rw [refClosedB, List.all_eq_true]
  intro e he
  rw [List.all_eq_true]
  intro rf hrf
  rw [List.any_eq_true]
  simp only [List.mem_cons, List.mem_append, List.mem_map, List.mem_singleton]
    at he
  rcases he with ((rfl | ⟨s, hs, rfl⟩) | ⟨o, ho, rfl⟩) | (rfl | hnil)
  · simp only [FhirResource.refs, List.not_mem_nil] at hrf
  · simp only [FhirResource.refs, List.mem_singleton] at hrf
    subst hrf
    refine ⟨_, List.mem_cons_self _ _, ?_⟩
    simp [hstudy s hs]
  · simp only [FhirResource.refs, List.mem_singleton] at hrf
    subst hrf
    refine ⟨_, List.mem_cons_self _ _, ?_⟩
    simp [hobs o ho]
  · simp only [FhirResource.refs, List.mem_cons] at hrf
    rcases hrf with rfl | hrf
    · refine ⟨_, List.mem_cons_self _ _, ?_⟩
      simp [hdr]
    · obtain ⟨o, ho, rfl⟩ := hres rf hrf
      refine ⟨{ fullUrl := "urn:uuid:" ++ o.id
                resource := FhirResource.observation o }, ?_, ?_⟩
      · refine List.mem_cons_of_mem _ ?_
        refine List.mem_append_left _ ?_
        refine List.mem_append_right _ ?_
        exact List.mem_map_of_mem _ ho
      · simp
  · exact absurd hnil (List.not_mem_nil _)

theorem assembleGenBundle_refClosed (ds : Dataset) (gen : Nat → String)
    (nowIso : String) (patient : PatientR) (studyResource : ImagingStudyR)
    (observations : List ObservationR) (k : Nat)
    (hstudy : studyResource.subjectRef = "urn:uuid:" ++ patient.id) :
    refClosedB
      (assembleGenBundle ds gen nowIso patient studyResource observations k) =
      true := by
  refine refClosed_assembled patient patient.id [studyResource]
    (observations.map
      (fun o : ObservationR =>
        { o with subjectRef := "urn:uuid:" ++ patient.id }))
    _ ?_ ?_ ?_ ?_
  · intro s hs
    rw [List.mem_singleton] at hs
    subst hs
    exact hstudy
  · intro o ho
    rw [List.mem_map] at ho
    obtain ⟨o1, _, rfl⟩ := ho
    rfl
  · rfl
  · intro rf hr
    replace hr : rf ∈ (observations.map (fun o => o.id)).map
        (fun i => "urn:uuid:" ++ i) := hr
    rw [List.map_map] at hr
    rw [List.mem_map] at hr
    obtain ⟨o1, ho1, rfl⟩ := hr
    exact ⟨{ o1 with subjectRef := "urn:uuid:" ++ patient.id },
      List.mem_map_of_mem _ ho1, rfl⟩

theorem dicomToFhirPy_refClosed (ds : Dataset) (gen : Nat → String)
    (nowIso : String) : refClosedB (dicomToFhirPy ds gen nowIso) = true := by
  refine refClosed_assembled (extractPatientInfo ds (gen 0))
    (extractPatientInfo ds (gen 0)).id []
    ((match ds.contentSequence with
      | some items =>
          (extractObsPySeq ds (extractPatientInfo ds (gen 0)).id gen items 1).1
      | none => []).map
      (fun o : ObservationR =>
        { o with
          subjectRef := "urn:uuid:" ++ (extractPatientInfo ds (gen 0)).id }))
    _ ?_ ?_ ?_ ?_
  · intro s hs
    exact absurd hs (List.not_mem_nil s)
  · intro o ho
    rw [List.mem_map] at ho
    obtain ⟨o1, _, rfl⟩ := ho
    rfl
  · rfl
  · intro rf hr
    replace hr : rf ∈
        ((((match ds.contentSequence with
          | some items =>
              (extractObsPySeq ds (extractPatientInfo ds (gen 0)).id gen items
                1).1
          | none => []) : List ObservationR).map
          (fun o : ObservationR => o.id)).map
          (fun i => "urn:uuid:" ++ i)) := hr
    rw [List.map_map] at hr
    rw [List.mem_map] at hr
    obtain ⟨o1, ho1, rfl⟩ := hr
    exact ⟨{ o1 with
              subjectRef := "urn:uuid:" ++ (extractPatientInfo ds (gen 0)).id },
      List.mem_map_of_mem _ ho1, rfl⟩

/-- **C3.** For every FHIR Bundle returned by either `dicom_to_fhir` builder
(the fhir_message_genrate.py version, which can fail, and the
dicom_to_fhir.py version, which is total), every `reference` string occurring
in any resource of the bundle (`Observation.subject`,
`DiagnosticReport.subject`, `DiagnosticReport.result`,
`ImagingStudy.subject`) equals the `fullUrl` of some entry of the same
bundle. -/
theorem c3_fhir_bundle_referential_closure :
    (∀ (ds : Dataset) (gen : Nat → String) (nowIso : String),
        (match dicomToFhirGen ds gen nowIso with
          | Except.ok b => refClosedB b
          | Except.error _ => true) = true) ∧
    ∀ (ds : Dataset) (gen : Nat → String) (nowIso : String),
      refClosedB (dicomToFhirPy ds gen nowIso) = true := by
  refine ⟨?_, dicomToFhirPy_refClosed⟩
  intro ds gen nowIso
  simp only [dicomToFhirGen]
  cases hR : extractSrReport ds with
  | error e => rfl
  | ok report =>
    show (match dicomToFhirGenFrom ds gen nowIso report with
      | Except.ok b => refClosedB b
      | Except.error _ => true) = true
    simp only [dicomToFhirGenFrom]
    cases hE : extractObsLoopGen ds (extractPatientInfo ds (gen 0)).id gen
        (pySplitCh '\n' report) "" 2 with
    | error e => rfl
    | ok r =>
      obtain ⟨l, k⟩ := r
      cases l with
      | nil => rfl
      | cons o os =>
        refine assembleGenBundle_refClosed ds gen nowIso _ _ (o :: os) k ?_
        rfl

/-- A deterministic stand-in for the uuid generator. -/
def uuidSeq : Nat → String := fun n => "uuid-" ++ toString n

/-- A dataset whose SR tree is present but yields zero findings (empty
`ContentSequence`), all other fields populated. -/
def dsEmptyTree : Dataset :=
  { patientID := some "P1"
    patientSex := some "F"
    studyDate := some "20250101"
    studyTime := some "120000"
    accessionNumber := some "ACC1"
    studyInstanceUID := some "9.9"
    sopInstanceUID := "1.2.3"
    contentSequence := some [] }

/-- A dataset with one TEXT finding but no `StudyDate` attribute. -/
def dsNoStudyDate : Dataset :=
  { patientID := some "P1"
    studyTime := some "120000"
    accessionNumber := some "ACC1"
    studyInstanceUID := some "9.9"
    sopInstanceUID := "1.2.3"
    contentSequence :=
      some
        [SRItem.mk
          { conceptNameCodeSequence :=
              some [{ codeMeaning := some "Finding" }]
            valueType := some "TEXT"
            textValue := some "abc" } []] }

/-- **C4 (code bug).** The fhir_message_genrate.py builder does *not* return
a Bundle whenever the canonical record is constructible: with zero findings
its mis-indented assembly loop never assigns `entries` and the `return`
raises `UnboundLocalError`, and with a missing `StudyDate` its observation
loop dereferences `ds.StudyDate` unguarded and raises `AttributeError` —
while the duplicate dicom_to_fhir.py builder completes and returns a Bundle
on the same inputs, as the spec describes. -/
theorem c4_gen_builder_raises_on_missing_optional_fields :
    dicomToFhirGen dsEmptyTree uuidSeq "2025-01-01T00:00:00" =
      Except.error
        "UnboundLocalError: local variable 'entries' referenced before assignment" ∧
    dicomToFhirGen dsNoStudyDate uuidSeq "2025-01-01T00:00:00" =
      Except.error "AttributeError: StudyDate" ∧
    (dicomToFhirPy dsEmptyTree uuidSeq "2025-01-01T00:00:00").entry.length =
      2 ∧
    (dicomToFhirPy dsNoStudyDate uuidSeq "2025-01-01T00:00:00").entry.length =
      3 :=
  ⟨rfl, rfl, rfl, rfl⟩
